import Mathlib

/-!
# Verification of the PowerMeter firmware core

Shallow embedding of `src/PowerMeter.ino` and `src/Watts.cpp`
(wa1hco/PowerMeter): the interrupt-driven sampling/filtering pipeline,
the LTC5507 voltage-to-watts curve fit, the display/menu state machine
with its EEPROM commit logic, the button decoder, and the LCD bar
renderer.

Modelling conventions:
* C `int` / `long` values are modelled as `ℤ` (no overflow is reachable
  at the values involved: counters stay below 5000, ADC values below
  1024, bar lengths below 61).
* C `float` arithmetic is modelled exactly: over `ℚ` where the source
  only adds/multiplies/divides rationals, and over `ℝ` for the curve
  fit and `pow(10, -dB/10)` in `Watts.cpp`.
* The C cast `(int)` applied to a float truncates toward zero; it is
  modelled by `cInt` below.
* Hardware/LCD side effects (`lcd.print`, `analogWrite`, …) are not
  part of any claim's data flow except the glyph codes emitted by
  `drawbar`, which are collected into a list.
-/

namespace PowerMeter

/-- C cast `(int)` of a float value: truncation toward zero. -/
def cInt (q : ℚ) : ℤ := if q < 0 then -⌊-q⌋ else ⌊q⌋

theorem cInt_intCast (n : ℤ) : cInt (n : ℚ) = n := by
  unfold cInt
  split
  · rw [← Int.cast_neg, Int.floor_intCast, neg_neg]
  · exact Int.floor_intCast n

theorem cInt_of_nonneg {q : ℚ} (h : 0 ≤ q) : cInt q = ⌊q⌋ := by
  unfold cInt
  rw [if_neg (not_lt.2 h)]

/-- `const int TimeBetweenInterrupts = 2` (PowerMeter.ino line 148),
the 2 ms ISR period. -/
def TimeBetweenInterrupts : ℤ := 2

/-- `const int TimeBetweenDisplayUpdates = 50` (PowerMeter.ino line 149),
the intended 50 ms display/button update period. -/
def TimeBetweenDisplayUpdates : ℤ := 50

/-! ## ChannelFilter: `UpdateAnalogInputs` (PowerMeter.ino lines 185-220)

Per channel, per 2 ms tick, the source updates the running average
`iAdcAvg` from the raw sample `iAdc` with an asymmetric IIR filter:

```
if (PwrFwd.iAdc > PwrFwd.iAdcAvg)
  PwrFwd.iAdcAvg = (int)((1.0-fAdcUpCoef)*(float)PwrFwd.iAdcAvg
                         + fAdcUpCoef*(float)PwrFwd.iAdc);
else if (PwrFwd.iAdc < PwrFwd.iAdcAvg)
  PwrFwd.iAdcAvg = (int)((1.0-fAdcDecayCoef)*(float)PwrFwd.iAdcAvg
                         + fAdcDecayCoef*(float)PwrFwd.iAdc);
```

There is no separate `peakValue`/`peakAge` state anywhere in the
source; this asymmetric filter (with the charge coefficient acting as
"peak hold" when it is 1, per the comment at line 225) is the only
peak-tracking mechanism. -/

/-- One `UpdateAnalogInputs` step for one channel: `fAdcUpCoef` and
`fAdcDecayCoef` are the charge/discharge coefficients, `iAdcAvg` the
stored average, `iAdc` the fresh raw sample. -/
def UpdateAnalogInputsStep (fAdcUpCoef fAdcDecayCoef : ℚ)
    (iAdcAvg iAdc : ℤ) : ℤ :=
  if iAdc > iAdcAvg then
    cInt ((1 - fAdcUpCoef) * (iAdcAvg : ℚ) + fAdcUpCoef * (iAdc : ℚ))
  else if iAdc < iAdcAvg then
    cInt ((1 - fAdcDecayCoef) * (iAdcAvg : ℚ) + fAdcDecayCoef * (iAdc : ℚ))
  else iAdcAvg

/-! ## Filter coefficient derivation (PowerMeter.ino lines 833, 879, 1181-1182)

```
fAdcUpCoef    = 1.0/( Settings.MeterAvgTc   / (float) TimeBetweenInterrupts );
fAdcDecayCoef = 1.0/( Settings.MeterDecayTc / (float) TimeBetweenInterrupts );
```
No clamping is applied to the result. -/

/-- Coefficient computed by `MeterAvgTcControl` and `setup` from the
averaging time constant. -/
def fAdcUpCoefOf (MeterAvgTc : ℚ) : ℚ :=
  1 / (MeterAvgTc / (TimeBetweenInterrupts : ℚ))

/-- Coefficient computed by `MeterDecayTcControl` and `setup` from the
decay time constant. -/
def fAdcDecayCoefOf (MeterDecayTc : ℚ) : ℚ :=
  1 / (MeterDecayTc / (TimeBetweenInterrupts : ℚ))

/-! ## Claim C2: peak hold and decay -/

/-- C2 counterexample: with charge coefficient 1 (the configuration the
source comment at line 225 calls "equivalent to peak hold") and decay
coefficient 2/1000 (a 1000 ms decay time constant), a channel that has
just adopted the peak 1023 is NOT pinned there after the raw input
steps down to 0: on the very first subsequent tick the average drops to
1020, so the value is not held for any positive hold duration, contrary
to the claimed "remains pinned at that peak for at least the configured
hold duration after the decrease". -/
theorem peak_not_pinned_first_tick_after_decrease :
    UpdateAnalogInputsStep 1 (1/500) (UpdateAnalogInputsStep 1 (1/500) 0 1023) 0 = 1020 ∧
    (1020 : ℤ) < UpdateAnalogInputsStep 1 (1/500) 0 1023 := by
  have h1 : UpdateAnalogInputsStep 1 (1/500) 0 1023 = 1023 := by
    unfold UpdateAnalogInputsStep cInt
    norm_num
  rw [h1]
  constructor
  · unfold UpdateAnalogInputsStep cInt
    norm_num
  · norm_num

/-- C2 amended: the only peak tracking in the source is the asymmetric
IIR average of `UpdateAnalogInputsStep`. (a) With charge coefficient 1
it adopts any raw increase immediately. (b) After a decrease there is
no hold interval: every tick with raw input at or below the average
moves the average monotonically downward (never increasing, never below
the raw input), for any discharge coefficient in [0,1]. -/
theorem iir_adopts_increase_and_decays_monotonically :
    (∀ (d : ℚ) (avg adc : ℤ), avg < adc →
      UpdateAnalogInputsStep 1 d avg adc = adc) ∧
    (∀ (u d : ℚ) (avg adc : ℤ), 0 ≤ d → d ≤ 1 → 0 ≤ adc → adc ≤ avg →
      adc ≤ UpdateAnalogInputsStep u d avg adc ∧
      UpdateAnalogInputsStep u d avg adc ≤ avg) := by
  constructor
  · intro d avg adc h
    unfold UpdateAnalogInputsStep
    rw [if_pos h]
    have hx : (1 - (1:ℚ)) * (avg : ℚ) + 1 * (adc : ℚ) = ((adc : ℤ) : ℚ) := by
      ring
    rw [hx, cInt_intCast]
  · intro u d avg adc hd0 hd1 hadc0 hle
    unfold UpdateAnalogInputsStep
    rw [if_neg (by omega)]
    by_cases hlt : adc < avg
    · rw [if_pos hlt]
      set x : ℚ := (1 - d) * (avg : ℚ) + d * (adc : ℚ) with hxdef
      have hcast : ((adc : ℚ)) ≤ (avg : ℚ) := by exact_mod_cast hle
      have hxlo : ((adc : ℚ)) ≤ x := by nlinarith
      have hxhi : x ≤ ((avg : ℚ)) := by nlinarith
      have hx0 : (0 : ℚ) ≤ x := le_trans (by exact_mod_cast hadc0) hxlo
      rw [cInt_of_nonneg hx0]
      constructor
      · exact Int.le_floor.2 hxlo
      · have := Int.floor_le_floor hxhi
        simpa using this
    · rw [if_neg hlt]
      omega

/-- Witness for `iir_adopts_increase_and_decays_monotonically` at
concrete inputs: adoption of a raw step to 1023, and one decay tick
from 1023 toward 0 staying within [0, 1023]. -/
theorem iir_adopts_increase_and_decays_monotonically_witness :
    UpdateAnalogInputsStep 1 (1/500) 0 1023 = 1023 ∧
    (0 ≤ UpdateAnalogInputsStep 1 (1/500) 1023 0 ∧
     UpdateAnalogInputsStep 1 (1/500) 1023 0 ≤ 1023) :=
  ⟨iir_adopts_increase_and_decays_monotonically.1 (1/500) 0 1023 (by norm_num),
   iir_adopts_increase_and_decays_monotonically.2 1 (1/500) 1023 0
     (by norm_num) (by norm_num) (by norm_num) (by norm_num)⟩

/-! ## Claim C7: derived filter coefficient -/

/-- C7 counterexample: the admissible minimum averaging time constant is
`MeterAvgTcMin = 1.0` (PowerMeter.ino line 801); at that setting the
derived coefficient is `1/(1/2) = 2`, which is NOT in [0,1] — the
source applies no clamping to the coefficient. -/
theorem coef_exceeds_one_at_min_time_constant :
    fAdcUpCoefOf 1 = 2 ∧ ¬ (fAdcUpCoefOf 1 ≤ 1) := by
  unfold fAdcUpCoefOf TimeBetweenInterrupts
  norm_num

/-- C7 amended: for every admissible time constant `tc ∈ [1, 2000]`
(the declared `MeterAvgTc`/`MeterDecayTc` ranges), the derived
coefficient equals tickPeriod / timeConstant exactly, is positive, is
at most 2, and lies in [0,1] precisely when `tc` is at least the 2 ms
tick period; no clamping of the coefficient to [0,1] is performed. -/
theorem coef_equals_tick_over_tc_unclamped (tc : ℚ)
    (h1 : 1 ≤ tc) (h2 : tc ≤ 2000) :
    fAdcUpCoefOf tc = (TimeBetweenInterrupts : ℚ) / tc ∧
    0 < fAdcUpCoefOf tc ∧ fAdcUpCoefOf tc ≤ 2 ∧
    ((TimeBetweenInterrupts : ℚ) ≤ tc → fAdcUpCoefOf tc ≤ 1) ∧
    fAdcDecayCoefOf tc = fAdcUpCoefOf tc := by
  have htc : (0 : ℚ) < tc := lt_of_lt_of_le one_pos h1
  have htick : ((TimeBetweenInterrupts : ℤ) : ℚ) = 2 := by
    norm_num [TimeBetweenInterrupts]
  unfold fAdcUpCoefOf fAdcDecayCoefOf
  rw [htick, one_div_div]
  refine ⟨rfl, by positivity, ?_, ?_, rfl⟩
  · rw [div_le_iff₀ htc]; linarith
  · intro hge
    rw [div_le_one htc]
    linarith

/-- Witness for `coef_equals_tick_over_tc_unclamped` at `tc = 4` ms. -/
theorem coef_equals_tick_over_tc_unclamped_witness :
    fAdcUpCoefOf 4 = (TimeBetweenInterrupts : ℚ) / 4 ∧
    0 < fAdcUpCoefOf 4 ∧ fAdcUpCoefOf 4 ≤ 2 ∧
    ((TimeBetweenInterrupts : ℚ) ≤ 4 → fAdcUpCoefOf 4 ≤ 1) ∧
    fAdcDecayCoefOf 4 = fAdcUpCoefOf 4 :=
  coef_equals_tick_over_tc_unclamped 4 (by norm_num) (by norm_num)

/-! ## PowerConverter: `Watts` (src/Watts.cpp lines 8-25)

```
float Watts( float dB_coupler, float Vol, float Vo )
{
  float V, Vinpp, W, Gain_coupler;
  V = Vo - Vol; // subtrace zero power offset
  if (V < 0.0) {V = 0.0;}
  if (V >= 0.42100)
    Vinpp = 0.036838*pow(V,2) + 1.739364*V + -0.384399;
  else
    Vinpp = 7.346069*pow(V,3) + -3.656032*pow(V,2) + 1.032727*V + 0.017345;
  Gain_coupler = pow(10, -dB_coupler/10);
  W = Gain_coupler * pow(Vinpp/2.818, 2)/50; // P = E^2/R
  return W;
}
```
Float arithmetic is modelled over `ℝ`. -/

/-- The clamped detector voltage computed at Watts.cpp lines 11-12:
`V = Vo - Vol; if (V < 0.0) {V = 0.0;}`. -/
noncomputable def WattsV (Vol Vo : ℝ) : ℝ :=
  if Vo - Vol < 0 then 0 else Vo - Vol

/-- Low curve fit (Watts.cpp line 19), used for `V < 0.421`. -/
noncomputable def lowFit (V : ℝ) : ℝ :=
  7.346069 * V ^ 3 + (-3.656032) * V ^ 2 + 1.032727 * V + 0.017345

/-- High curve fit (Watts.cpp line 15), used for `V >= 0.421`. -/
noncomputable def highFit (V : ℝ) : ℝ :=
  0.036838 * V ^ 2 + 1.739364 * V + (-0.384399)

/-- Two-regime curve fit selection (Watts.cpp lines 13-20). -/
noncomputable def VinppOf (V : ℝ) : ℝ :=
  if V ≥ 0.42100 then highFit V else lowFit V

/-- `Gain_coupler = pow(10, -dB_coupler/10)` (Watts.cpp line 22). -/
noncomputable def Gain_coupler (dB_coupler : ℝ) : ℝ :=
  (10 : ℝ) ^ (-dB_coupler / 10)

/-- The full conversion `Watts` (Watts.cpp lines 8-25). -/
noncomputable def Watts (dB_coupler Vol Vo : ℝ) : ℝ :=
  Gain_coupler dB_coupler * (VinppOf (WattsV Vol Vo) / 2.818) ^ 2 / 50

/-- `CalculatePower`'s forward-channel call (PowerMeter.ino line 281):
`PwrFwd.fWatts = Watts(Settings.CouplerGainFwdDB, OffsetVoltFwd,
PwrFwd.fVoltsAvg - OffsetVoltFwd)` — the offset is subtracted at the
call site before being passed as `Vo`. -/
noncomputable def CalculatePowerFwdWatts
    (CouplerGainFwdDB OffsetVoltFwd fVoltsAvg : ℝ) : ℝ :=
  Watts CouplerGainFwdDB OffsetVoltFwd (fVoltsAvg - OffsetVoltFwd)

/-- The voltage that actually reaches the curve fit when
`CalculatePower` runs: the composition of the call-site subtraction
(PowerMeter.ino line 281) with the subtraction and clamp inside `Watts`
(Watts.cpp lines 11-12). -/
noncomputable def curveFitInputFwd (OffsetVoltFwd fVoltsAvg : ℝ) : ℝ :=
  WattsV OffsetVoltFwd (fVoltsAvg - OffsetVoltFwd)

/-- Definition following the spec's words (spec §4.2 step 1), for
comparison with the code's data flow: `v = max(0, measuredVoltage −
offsetVoltage)`, the offset subtracted exactly once. -/
noncomputable def specCurveFitV (measuredVoltage offsetVoltage : ℝ) : ℝ :=
  max 0 (measuredVoltage - offsetVoltage)

/-! ## Claim C3: offset subtraction -/

/-- C3: the offset is subtracted twice, not once. At the debug offset
`OffsetVoltFwd = 0.6` set in `setup` (PowerMeter.ino line 1188) and a
filtered measurement of 1.0 V, the voltage reaching the curve fit is
`max(0, (1.0 − 0.6) − 0.6) = 0`, while the spec's
`v = max(0, measuredVoltage − offsetVoltage)` is 0.4: `CalculatePower`
subtracts the offset at the call site and `Watts` subtracts its `Vol`
argument again. `Watts.cpp`'s own header describes the voltage input as
"output of LTC5507, minus Vol", i.e. already offset-corrected. -/
theorem offset_subtracted_twice_at_debug_input :
    curveFitInputFwd 0.6 1 = 0 ∧ specCurveFitV 1 0.6 = 0.4 ∧
    curveFitInputFwd 0.6 1 ≠ specCurveFitV 1 0.6 := by
  unfold curveFitInputFwd WattsV specCurveFitV
  rw [if_pos (by norm_num)]
  norm_num

/-! ## Claim C4: monotonicity of the conversion -/

theorem lowFit_mono {a b : ℝ} (h : a ≤ b) : lowFit a ≤ lowFit b := by
  unfold lowFit
  nlinarith [mul_nonneg (sub_nonneg.2 h) (sq_nonneg (a + b - 7312064/22038207)),
    mul_nonneg (sub_nonneg.2 h) (sq_nonneg (a - b)), sub_nonneg.2 h]

theorem highFit_mono {a b : ℝ} (h0 : 0 ≤ a) (h : a ≤ b) :
    highFit a ≤ highFit b := by
  unfold highFit
  nlinarith [mul_nonneg (sub_nonneg.2 h) (add_nonneg h0 (h0.trans h)),
    sub_nonneg.2 h]

theorem knee_low_le_high : lowFit 0.42100 ≤ highFit 0.42100 := by
  unfold lowFit highFit
  norm_num

theorem VinppOf_mono {a b : ℝ} (h0 : 0 ≤ a) (h : a ≤ b) :
    VinppOf a ≤ VinppOf b := by
  unfold VinppOf
  by_cases ha : a ≥ 0.42100
  · rw [if_pos ha, if_pos (le_trans ha h)]
    exact highFit_mono h0 h
  · rw [if_neg ha]
    by_cases hb : b ≥ 0.42100
    · rw [if_pos hb]
      calc lowFit a ≤ lowFit 0.42100 := lowFit_mono (le_of_not_le ha)
        _ ≤ highFit 0.42100 := knee_low_le_high
        _ ≤ highFit b := highFit_mono (by norm_num) hb
    · rw [if_neg hb]
      exact lowFit_mono h

theorem VinppOf_nonneg {a : ℝ} (h0 : 0 ≤ a) : 0 ≤ VinppOf a := by
  have h : VinppOf 0 ≤ VinppOf a := VinppOf_mono le_rfl h0
  have h0' : (0 : ℝ) ≤ VinppOf 0 := by
    unfold VinppOf lowFit
    rw [if_neg (by norm_num)]
    norm_num
  exact h0'.trans h

theorem WattsV_nonneg (Vol Vo : ℝ) : 0 ≤ WattsV Vol Vo := by
  unfold WattsV
  split_ifs with h
  · exact le_rfl
  · exact le_of_not_lt h

theorem WattsV_mono (Vol : ℝ) {v1 v2 : ℝ} (h : v1 ≤ v2) :
    WattsV Vol v1 ≤ WattsV Vol v2 := by
  unfold WattsV
  split_ifs with h1 h2 h3
  · exact le_rfl
  · exact le_of_not_lt h2
  · linarith
  · linarith

theorem Gain_coupler_pos (dB_coupler : ℝ) : 0 < Gain_coupler dB_coupler :=
  Real.rpow_pos_of_pos (by norm_num) _

/-- C4: for every fixed coupler attenuation and offset, `Watts` is
monotonically non-decreasing in its voltage argument: for all
`0 ≤ v1 ≤ v2`, `Watts dB off v1 ≤ Watts dB off v2`, across both the
cubic regime (`v < 0.421`) and the quadratic regime (`v ≥ 0.421`). -/
theorem Watts_monotone_in_voltage (dB off v1 v2 : ℝ)
    (h0 : 0 ≤ v1) (h12 : v1 ≤ v2) :
    Watts dB off v1 ≤ Watts dB off v2 := by
  have hV : WattsV off v1 ≤ WattsV off v2 := WattsV_mono off h12
  have hV1 : 0 ≤ WattsV off v1 := WattsV_nonneg off v1
  have hY1 : 0 ≤ VinppOf (WattsV off v1) := VinppOf_nonneg hV1
  have hY : VinppOf (WattsV off v1) ≤ VinppOf (WattsV off v2) :=
    VinppOf_mono hV1 hV
  have hg : 0 < Gain_coupler dB := Gain_coupler_pos dB
  unfold Watts
  have hdiv : VinppOf (WattsV off v1) / 2.818 ≤ VinppOf (WattsV off v2) / 2.818 := by
    apply div_le_div_of_nonneg_right hY
    norm_num
  have hdiv0 : 0 ≤ VinppOf (WattsV off v1) / 2.818 := by positivity
  have hsq : (VinppOf (WattsV off v1) / 2.818) ^ 2
      ≤ (VinppOf (WattsV off v2) / 2.818) ^ 2 :=
    pow_le_pow_left₀ hdiv0 hdiv 2
  have := mul_le_mul_of_nonneg_left hsq hg.le
  linarith

/-- Witness for `Watts_monotone_in_voltage` at a concrete input pair
spanning into the quadratic regime. -/
theorem Watts_monotone_in_voltage_witness : Watts 0 0 0 ≤ Watts 0 0 1 :=
  Watts_monotone_in_voltage 0 0 0 1 le_rfl zero_le_one

/-! ## SamplingScheduler: `TimedService` (PowerMeter.ino lines 233-250)

```
static int DisplayTimeCounter = 0;
DisplayTimeCounter += TimeBetweenInterrupts;
if (DisplayTimeCounter > TimeBetweenDisplayUpdates)
{
  DisplayTimeCounter = 0;
  DisplayFlag = true;
}
```
-/

/-- One ISR invocation: returns the new counter and whether this call
set `DisplayFlag`. -/
def TimedServiceStep (DisplayTimeCounter : ℤ) : ℤ × Bool :=
  let c := DisplayTimeCounter + TimeBetweenInterrupts
  if c > TimeBetweenDisplayUpdates then (0, true) else (c, false)

/-- Counter value after `n` ISR calls, starting from the static
initializer 0. -/
def DisplayTimeCounterAfter : ℕ → ℤ
  | 0 => 0
  | n + 1 => (TimedServiceStep (DisplayTimeCounterAfter n)).1

/-- Whether the `n`-th ISR call (counting from 1) sets `DisplayFlag`. -/
def DisplayFlagRaisedOnCall : ℕ → Bool
  | 0 => false
  | n + 1 => (TimedServiceStep (DisplayTimeCounterAfter n)).2

/-! ## Claim C5: display-flag period -/

set_option maxRecDepth 4000 in
/-- C5 counterexample: the 25th 2-ms ISR call does NOT raise the
display flag (the counter is then exactly 50 and the comparison is
strict), and the 26th call does; so the flag period is 52 ms, not the
claimed 50 ms. -/
theorem display_flag_not_raised_on_25th_call :
    DisplayFlagRaisedOnCall 25 = false ∧ DisplayFlagRaisedOnCall 26 = true := by
  decide

theorem DisplayTimeCounterAfter_eq (n : ℕ) :
    DisplayTimeCounterAfter n = 2 * ((n % 26 : ℕ) : ℤ) := by
  induction n with
  | zero => simp [DisplayTimeCounterAfter]
  | succ n ih =>
    simp only [DisplayTimeCounterAfter, TimedServiceStep, ih,
      TimeBetweenInterrupts, TimeBetweenDisplayUpdates]
    split_ifs with h
    · omega
    · omega

/-- C5 amended: `TimedService` raises the display-ready flag exactly
every 26th 2-ms tick (a 52 ms period), because the counter comparison
`DisplayTimeCounter > TimeBetweenDisplayUpdates` is strict and the
counter restarts at 0. -/
theorem display_flag_raised_every_26th_call (n : ℕ) :
    DisplayFlagRaisedOnCall (n + 1) = decide ((n + 1) % 26 = 0) := by
  have h := DisplayTimeCounterAfter_eq n
  simp only [DisplayFlagRaisedOnCall, TimedServiceStep, h,
    TimeBetweenInterrupts, TimeBetweenDisplayUpdates]
  split_ifs with hc
  · have h0 : (n + 1) % 26 = 0 := by omega
    simp [h0]
  · have h0 : (n + 1) % 26 ≠ 0 := by omega
    simp [h0]

/-! ## Button and display state machine (PowerMeter.ino lines 903-1094)

`DisplayMachine` dispatches on `DisplayState` (PowerMode/ControlMode)
and `ButtonPressed`/`ButtonPressTime` as read by `ReadButton`. Besides
the transitions below, `DisplayMachine` only calls the per-page control
handler (which mutates `Settings`, modelled separately) and the power
display; neither touches `DisplayState`, `ModeIndex` or the EEPROM.
`eeprom_write_block` (line 965) is modelled by incrementing a write
counter. -/

/-- `enum button_t` (PowerMeter.ino lines 137-145). -/
inductive button_t
  | NoButton
  | SelectButton
  | LeftButton
  | RightButton
  | UpButton
  | DownButton
deriving DecidableEq, Repr

/-- `enum state_t { PowerMode, ControlMode }` (line 906) plus the other
state `DisplayMachine` reads and writes: the static `ModeIndex`
(line 940) and a counter of `eeprom_write_block` calls (line 965). -/
structure MachineState where
  DisplayState : Bool -- true = ControlMode, false = PowerMode
  ModeIndex : ℤ
  eepromWrites : ℕ
deriving DecidableEq, Repr

/-- `const int ModeIndexMin = 0` (line 941). -/
def ModeIndexMin : ℤ := 0

/-- `const int ModeIndexMax = 10` (line 942): 11 control pages. -/
def ModeIndexMax : ℤ := 10

/-- `const int ControlTimeout = 5000` (line 944). -/
def ControlTimeout : ℤ := 5000

/-- One `DisplayMachine` pass (lines 946-1029) after `ReadButton` has
produced `ButtonPressed` and `ButtonPressTime`. The rows with
`DisplayState := true` are the ControlMode cases (lines 948-996), the
rest the PowerMode cases (lines 998-1026); Up/Down in ControlMode and
every non-Select button in PowerMode leave this state untouched. -/
def DisplayMachineStep : MachineState → button_t → ℤ → MachineState
  | ⟨true, m, w⟩, button_t.NoButton, t =>
      if t = ControlTimeout then ⟨false, m, w⟩ else ⟨true, m, w⟩
  | ⟨true, m, w⟩, button_t.SelectButton, t =>
      if t = 0 then ⟨false, m, w + 1⟩ else ⟨true, m, w⟩
  | ⟨true, m, w⟩, button_t.LeftButton, t =>
      if t = 0 then
        ⟨true, if m > ModeIndexMin then m - 1 else ModeIndexMax, w⟩
      else ⟨true, m, w⟩
  | ⟨true, m, w⟩, button_t.RightButton, t =>
      if t = 0 then
        ⟨true, if m < ModeIndexMax then m + 1 else ModeIndexMin, w⟩
      else ⟨true, m, w⟩
  | ⟨true, m, w⟩, button_t.UpButton, _ => ⟨true, m, w⟩
  | ⟨true, m, w⟩, button_t.DownButton, _ => ⟨true, m, w⟩
  | ⟨false, m, w⟩, button_t.SelectButton, t =>
      if t = 0 then ⟨true, m, w⟩ else ⟨false, m, w⟩
  | ⟨false, m, w⟩, _, _ => ⟨false, m, w⟩

/-- Globals written by `ReadButton` (lines 1039-1094): the static
`oldkey` and the globals `ButtonPressed`, `ButtonPressTime`. -/
structure ButtonState where
  oldkey : ℤ
  ButtonPressed : button_t
  ButtonPressTime : ℤ
deriving DecidableEq, Repr

/-- `switch (key)` of `ReadButton` (lines 1061-1082): decoded key to
button; any key outside 0-4 (the ladder loop yields 5 when no button
grounds the ladder) leaves the default `NoButton`. -/
def buttonOfKey (key : ℤ) : button_t :=
  if key = 0 then button_t.RightButton
  else if key = 1 then button_t.UpButton
  else if key = 2 then button_t.DownButton
  else if key = 3 then button_t.LeftButton
  else if key = 4 then button_t.SelectButton
  else button_t.NoButton

/-- `const int ButtonPressTimeMax = 5000` (line 1086). -/
def ButtonPressTimeMax : ℤ := 5000

/-- One `ReadButton` pass given the freshly decoded `key`: on a key
transition reset `ButtonPressTime` and re-decode `ButtonPressed`;
otherwise accumulate the press time by 50 ms, saturating at 5000
(lines 1057-1093). -/
def ReadButtonStep (b : ButtonState) (key : ℤ) : ButtonState :=
  if key ≠ b.oldkey then
    { oldkey := key, ButtonPressed := buttonOfKey key, ButtonPressTime := 0 }
  else
    { b with ButtonPressTime :=
        if b.ButtonPressTime + TimeBetweenDisplayUpdates > ButtonPressTimeMax
        then ButtonPressTimeMax
        else b.ButtonPressTime + TimeBetweenDisplayUpdates }

/-- One display tick: `DisplayMachine` first calls `ReadButton`
(line 945), then dispatches on the decoded button. -/
def MachineStep (p : ButtonState × MachineState) (key : ℤ) :
    ButtonState × MachineState :=
  let b := ReadButtonStep p.1 key
  (b, DisplayMachineStep p.2 b.ButtonPressed b.ButtonPressTime)

/-- Run the machine over a list of decoded keys, one per display tick. -/
def runKeys (p : ButtonState × MachineState) : List ℤ → ButtonState × MachineState
  | [] => p
  | k :: ks => runKeys (MachineStep p k) ks

/-- `n` display ticks with no button pressed (ladder key 5). -/
def iterNoKey : ℕ → ButtonState × MachineState → ButtonState × MachineState
  | 0, p => p
  | n + 1, p => MachineStep (iterNoKey n p) 5

/-! ## Claim C1: settings commit -/

set_option maxRecDepth 4000 in
/-- C1 counterexample: there is no commit countdown. Starting from the
reset state (PowerMode, `oldkey = -1`, `ModeIndex = 0`, no writes), the
key sequence Select / release / Select — in which Select is never held
past its leading-edge tick, i.e. it is released long before any
positive countdown duration could elapse — performs exactly one EEPROM
write and exits to PowerMode on the leading edge itself. The claim
predicts zero writes for a Select released before the countdown
completes, and an exit only when a countdown reaches zero. -/
theorem select_press_writes_eeprom_immediately :
    (runKeys (⟨-1, button_t.NoButton, 0⟩, ⟨false, 0, 0⟩) [4, 5, 4]).2 =
      ⟨false, 0, 1⟩ := by
  decide

/-- C1 amended: in ControlMode a leading-edge Select press
(`ButtonPressTime == 0`) persists the Settings exactly once and
transitions to PowerMode immediately; a Select that is still held
(`ButtonPressTime ≠ 0`) causes no write and no transition. There is no
deferred-commit countdown. -/
theorem select_commit_semantics (m : ℤ) (w : ℕ) (t : ℤ) :
    DisplayMachineStep ⟨true, m, w⟩ button_t.SelectButton 0 =
      ⟨false, m, w + 1⟩ ∧
    (t ≠ 0 →
      DisplayMachineStep ⟨true, m, w⟩ button_t.SelectButton t = ⟨true, m, w⟩) := by
  constructor
  · simp [DisplayMachineStep]
  · intro ht
    simp [DisplayMachineStep, ht]

/-- Witness for `select_commit_semantics` with the Select button held
for 50 ms. -/
theorem select_commit_semantics_witness :
    DisplayMachineStep ⟨true, 3, 0⟩ button_t.SelectButton 0 = ⟨false, 3, 1⟩ ∧
    DisplayMachineStep ⟨true, 3, 0⟩ button_t.SelectButton 50 = ⟨true, 3, 0⟩ :=
  ⟨(select_commit_semantics 3 0 50).1,
   (select_commit_semantics 3 0 50).2 (by decide)⟩

/-! ## Claim C8: configuration-mode inactivity timeout -/

theorem iterNoKey_stays_in_control (m : ℤ) (w : ℕ) :
    ∀ k : ℕ, k ≤ 99 →
      iterNoKey k (⟨5, button_t.NoButton, 0⟩, ⟨true, m, w⟩) =
        (⟨5, button_t.NoButton, 50 * (k : ℤ)⟩, ⟨true, m, w⟩) := by
  intro k
  induction k with
  | zero => intro _; simp [iterNoKey]
  | succ n ih =>
    intro h
    have hsat : ¬((50 : ℤ) * (((n + 1 : ℕ)) : ℤ) > 5000) := by
      push_cast; omega
    have hto : ¬((50 : ℤ) * (((n + 1 : ℕ)) : ℤ) = 5000) := by
      push_cast; omega
    have hcast : (50 : ℤ) * (n : ℤ) + 50 = 50 * (((n + 1 : ℕ)) : ℤ) := by
      push_cast; ring
    simp only [iterNoKey, ih (by omega), MachineStep, ReadButtonStep,
      ButtonPressTimeMax, TimeBetweenDisplayUpdates, DisplayMachineStep,
      ControlTimeout, ne_eq, not_true_eq_false, if_false, if_neg hsat,
      if_neg hto, hcast]

/-- C8: in ControlMode, with no button decoded for 100 consecutive
50 ms display ticks (5000 ms) after the transition to no-button, the
machine reverts to PowerMode at the tick where `ButtonPressTime`
reaches `ControlTimeout = 5000`, and the EEPROM write count is
unchanged by the whole run, for every page index `m` and prior write
count `w`. -/
theorem config_timeout_reverts_without_write (m : ℤ) (w : ℕ) :
    iterNoKey 100 (⟨5, button_t.NoButton, 0⟩, ⟨true, m, w⟩) =
      (⟨5, button_t.NoButton, 5000⟩, ⟨false, m, w⟩) := by
  have h99 := iterNoKey_stays_in_control m w 99 (by omega)
  show MachineStep (iterNoKey 99 _) 5 = _
  rw [h99]
  simp only [MachineStep, ReadButtonStep, ButtonPressTimeMax,
    TimeBetweenDisplayUpdates, DisplayMachineStep, ControlTimeout, ne_eq,
    not_true_eq_false, if_false]
  norm_num

/-! ## Claim C9: page navigation wraparound -/

/-- C9: in ControlMode, a leading-edge Left press on page 0 wraps to
page `ModeIndexMax = 10`, a leading-edge Right press on page 10 wraps
to page 0, otherwise Left/Right decrement/increment the page index by
one; and after any button at any press time the page index remains in
[0, 10] whenever it started there. -/
theorem page_navigation_wraparound (m : ℤ) (w : ℕ)
    (h0 : 0 ≤ m) (h10 : m ≤ 10) :
    ((DisplayMachineStep ⟨true, m, w⟩ button_t.LeftButton 0).ModeIndex =
      if m = 0 then 10 else m - 1) ∧
    ((DisplayMachineStep ⟨true, m, w⟩ button_t.RightButton 0).ModeIndex =
      if m = 10 then 0 else m + 1) ∧
    (∀ (b : button_t) (t : ℤ),
      0 ≤ (DisplayMachineStep ⟨true, m, w⟩ b t).ModeIndex ∧
      (DisplayMachineStep ⟨true, m, w⟩ b t).ModeIndex ≤ 10) := by
  refine ⟨?_, ?_, ?_⟩
  · simp only [DisplayMachineStep, ModeIndexMin, ModeIndexMax, if_pos rfl]
    split_ifs <;> (try dsimp only) <;> omega
  · simp only [DisplayMachineStep, ModeIndexMin, ModeIndexMax, if_pos rfl]
    split_ifs <;> (try dsimp only) <;> omega
  · intro b t
    cases b <;>
      simp only [DisplayMachineStep, ModeIndexMin, ModeIndexMax, ControlTimeout] <;>
      (try split_ifs) <;> (try dsimp only) <;> omega

/-- Witness for `page_navigation_wraparound` at page 0: Left wraps to
the last page, 10. -/
theorem page_navigation_wraparound_witness :
    (DisplayMachineStep ⟨true, 0, 0⟩ button_t.LeftButton 0).ModeIndex =
      if (0 : ℤ) = 0 then 10 else 0 - 1 :=
  (page_navigation_wraparound 0 0 (by decide) (by decide)).1

/-! ## Settings value-adjust handlers (PowerMeter.ino lines 450-488, 573-605)

Each control handler first range-checks its Settings field ("Check
range, works for up/down, no button, EEPROM initialization"), THEN
applies the Up/Down adjustment proportional to `ButtonPressTime`, and
returns without re-clamping. -/

/-- The sequential range check used at the top of every handler:
`if (x < min) x = min; if (x > max) x = max;`. -/
def rangeCheck (lo hi x : ℚ) : ℚ :=
  let x1 := if x < lo then lo else x
  if x1 > hi then hi else x1

theorem rangeCheck_mem (lo hi x : ℚ) (h : lo ≤ hi) :
    lo ≤ rangeCheck lo hi x ∧ rangeCheck lo hi x ≤ hi := by
  unfold rangeCheck
  dsimp only
  split_ifs <;> constructor <;> linarith

/-- Effect of one `FwdCalControl` call (lines 450-488) on
`Settings.CouplerGainFwdDB`: entry range check to [-60, -10], then
`±0.1 * .001 * ButtonPressTime` on Up/Down; Select/Left/Right/NoButton
leave the (checked) value alone. -/
def FwdCalControlSettings (CouplerGainFwdDB : ℚ) (ButtonPressed : button_t)
    (ButtonPressTime : ℤ) : ℚ :=
  let g := rangeCheck (-60) (-10) CouplerGainFwdDB
  match ButtonPressed with
  | button_t.UpButton => g + 0.1 * 0.001 * (ButtonPressTime : ℚ)
  | button_t.DownButton => g - 0.1 * 0.001 * (ButtonPressTime : ℚ)
  | _ => g

/-- Effect of one `FwdLimitControl` call (lines 573-605) on
`Settings.LimitFwd`: entry range check to [10, 1500], then
`±1 * .001 * ButtonPressTime` on Up/Down. -/
def FwdLimitControlSettings (LimitFwd : ℚ) (ButtonPressed : button_t)
    (ButtonPressTime : ℤ) : ℚ :=
  let L := rangeCheck 10 1500 LimitFwd
  match ButtonPressed with
  | button_t.UpButton => L + 1 * 0.001 * (ButtonPressTime : ℚ)
  | button_t.DownButton => L - 1 * 0.001 * (ButtonPressTime : ℚ)
  | _ => L

/-! ## Claim C6: clamping of edited fields -/

/-- C6 counterexample: with `Settings.CouplerGainFwdDB` already at its
maximum -10 dB, an Up press held 1000 ms leaves -9.9 stored when
`FwdCalControl` returns — above the declared maximum, because the range
check runs before the adjustment, not after it. -/
theorem fwdcal_up_leaves_value_above_max :
    FwdCalControlSettings (-10) button_t.UpButton 1000 = -9.9 ∧
    ¬ (FwdCalControlSettings (-10) button_t.UpButton 1000 ≤ -10) := by
  unfold FwdCalControlSettings rangeCheck
  norm_num

/-- C6 amended: the handlers clamp at entry, before the adjustment, so
immediately after an invocation the stored field can exceed its range,
but only by one adjustment step (at most 0.5 dB for `CouplerGainFwdDB`
and 5 W for `LimitFwd`, since `ButtonPressTime` saturates at 5000 ms);
the next handler invocation's entry check restores the declared range,
so the value is clamped on every use rather than after every edit. -/
theorem handlers_clamp_on_entry_within_one_step (g L : ℚ) (b : button_t)
    (t : ℤ) (ht0 : 0 ≤ t) (ht1 : t ≤ 5000) :
    (-60.5 ≤ FwdCalControlSettings g b t ∧
      FwdCalControlSettings g b t ≤ -9.5) ∧
    (-60 ≤ FwdCalControlSettings (FwdCalControlSettings g b t) button_t.NoButton 0 ∧
      FwdCalControlSettings (FwdCalControlSettings g b t) button_t.NoButton 0 ≤ -10) ∧
    (5 ≤ FwdLimitControlSettings L b t ∧
      FwdLimitControlSettings L b t ≤ 1505) ∧
    (10 ≤ FwdLimitControlSettings (FwdLimitControlSettings L b t) button_t.NoButton 0 ∧
      FwdLimitControlSettings (FwdLimitControlSettings L b t) button_t.NoButton 0 ≤ 1500) :=
  by
  have htq0 : (0 : ℚ) ≤ (t : ℚ) := by exact_mod_cast ht0
  have htq1 : (t : ℚ) ≤ 5000 := by exact_mod_cast ht1
  have hg := rangeCheck_mem (-60) (-10) g (by norm_num)
  have hL := rangeCheck_mem 10 1500 L (by norm_num)
  have hcal : -60.5 ≤ FwdCalControlSettings g b t ∧
      FwdCalControlSettings g b t ≤ -9.5 := by
    unfold FwdCalControlSettings
    cases b <;> dsimp only <;> constructor <;> nlinarith [hg.1, hg.2]
  have hlim : 5 ≤ FwdLimitControlSettings L b t ∧
      FwdLimitControlSettings L b t ≤ 1505 := by
    unfold FwdLimitControlSettings
    cases b <;> dsimp only <;> constructor <;> nlinarith [hL.1, hL.2]
  refine ⟨hcal, ?_, hlim, ?_⟩
  · have := rangeCheck_mem (-60) (-10) (FwdCalControlSettings g b t) (by norm_num)
    unfold FwdCalControlSettings
    exact this
  · have := rangeCheck_mem 10 1500 (FwdLimitControlSettings L b t) (by norm_num)
    unfold FwdLimitControlSettings
    exact this

/-- Witness for `handlers_clamp_on_entry_within_one_step` at an Up
press held 1000 ms from in-range values. -/
theorem handlers_clamp_on_entry_within_one_step_witness :
    (-60.5 ≤ FwdCalControlSettings (-10) button_t.UpButton 1000 ∧
      FwdCalControlSettings (-10) button_t.UpButton 1000 ≤ -9.5) ∧
    (-60 ≤ FwdCalControlSettings
        (FwdCalControlSettings (-10) button_t.UpButton 1000) button_t.NoButton 0 ∧
      FwdCalControlSettings
        (FwdCalControlSettings (-10) button_t.UpButton 1000) button_t.NoButton 0 ≤ -10) ∧
    (5 ≤ FwdLimitControlSettings 1500 button_t.UpButton 1000 ∧
      FwdLimitControlSettings 1500 button_t.UpButton 1000 ≤ 1505) ∧
    (10 ≤ FwdLimitControlSettings
        (FwdLimitControlSettings 1500 button_t.UpButton 1000) button_t.NoButton 0 ∧
      FwdLimitControlSettings
        (FwdLimitControlSettings 1500 button_t.UpButton 1000) button_t.NoButton 0 ≤ 1500) :=
  handlers_clamp_on_entry_within_one_step (-10) 1500 button_t.UpButton 1000
    (by norm_num) (by norm_num)

/-! ## RenderPipeline: `drawbar` (PowerMeter.ino lines 298-324)

```
if(ana > 1023) ana = 1023;
if(ana <    0) ana =    0;
bar = (long)ana * (long)(CharPerRow-StartCharLoc)*PixelPerChar / 1023;
for (i = 0; i < bar / PixelPerChar; i++)
  lcd.write(0x05);
if ( i < CharPerRow) {
  lcd.write(bar % PixelPerChar);
  i++;
}
for ( ; i < CharPerRow; i++)
  lcd.print((char)0x00);
```
All quantities stay far below `int`/`long` limits, so plain `ℤ`
arithmetic is exact; C `/` and `%` agree with Lean's on the
non-negative values reached here. -/

/-- `const int CharPerRow = 16` (line 86). -/
def CharPerRow : ℤ := 16

/-- `const int PixelPerChar = 6` (line 87). -/
def PixelPerChar : ℤ := 6

/-- The clamp of `ana` to [0, 1023] (lines 305-306). -/
def clampAna (ana : ℤ) : ℤ :=
  if ana > 1023 then 1023 else if ana < 0 then 0 else ana

/-- The list of glyph codes `drawbar` writes to the LCD row, in order:
the full-block loop leaves `i = bar / PixelPerChar` (it runs zero times
when that quotient is not positive, which `Int.toNat` reproduces), then
one partial glyph `bar % PixelPerChar` is written when `i` has not
passed the row end, then blanks fill the rest of the row. -/
def drawbarGlyphs (StartCharLoc ana : ℤ) : List ℤ :=
  let bar := clampAna ana * (CharPerRow - StartCharLoc) * PixelPerChar / 1023
  let i := (bar / PixelPerChar).toNat
  List.replicate i 5 ++
    (if (i : ℤ) < CharPerRow then
      [bar % PixelPerChar] ++ List.replicate (CharPerRow - ((i : ℤ) + 1)).toNat 0
    else [])

/-! ## Claim C10: emitted glyph codes -/

/-- C10: for every integer analog argument (including values outside
[0, 1023]) at the start column 6 used by both `drawbar` call sites,
every glyph code written is one of the custom characters 0-5: the
full-block glyph 0x05, the partial glyph `bar % 6 ∈ [0, 5]`, or the
blank glyph 0x00. -/
theorem drawbar_glyphs_in_custom_char_range (ana : ℤ) :
    ∀ g ∈ drawbarGlyphs 6 ana, 0 ≤ g ∧ g ≤ 5 := by
  intro g hg
  unfold drawbarGlyphs at hg
  simp only [List.mem_append, List.mem_replicate, List.mem_singleton] at hg
  rcases hg with ⟨_, rfl⟩ | hg
  · norm_num
  · split_ifs at hg with hi
    · simp only [List.mem_append, List.mem_singleton, List.mem_replicate] at hg
      rcases hg with rfl | ⟨_, rfl⟩
      · constructor
        · exact Int.emod_nonneg _ (by norm_num [PixelPerChar])
        · have := Int.emod_lt_of_pos
            (clampAna ana * (CharPerRow - 6) * PixelPerChar / 1023)
            (show (0 : ℤ) < PixelPerChar by norm_num [PixelPerChar])
          norm_num [PixelPerChar] at this ⊢
          omega
      · norm_num
    · simp at hg

/-- Witness for `drawbar_glyphs_in_custom_char_range`: at `ana = 500`
the partial glyph 5 is among the emitted codes. -/
theorem drawbar_glyphs_in_custom_char_range_witness :
    0 ≤ (5 : ℤ) ∧ (5 : ℤ) ≤ 5 :=
  drawbar_glyphs_in_custom_char_range 500 5 (by decide)

end PowerMeter
